import Mathlib

/-!
Verification development for the STS sentence-similarity pipelines
(`predictor.py`, `llama_predictor.py`, `syntactic.py`, `semantic.py`).

Numbers that Python handles as IEEE floats are modelled as exact rationals
(`ℚ`): every property proved below is about exact values, branch conditions
and list structure, not rounding.  Where a real-valued quantity involves
a square root (cosine similarity, Pearson correlation) the development works
with an algebraically equivalent rational encoding, documented at the
definition site.
-/

/-- Helper: split a character list at separators satisfying `p`.  Adjacent
separators yield empty chunks, exactly like repeated separators in Python
before the caller filters them out. -/
def splitAcc (p : Char → Bool) : List Char → List Char → List (List Char)
  | cur, [] => [cur.reverse]
  | cur, c :: cs => if p c then cur.reverse :: splitAcc p [] cs else splitAcc p (c :: cur) cs

/-- Models Python `str.split()` with no argument: split on runs of whitespace
and drop the empty chunks. -/
def pySplit (s : String) : List String :=
  ((splitAcc Char.isWhitespace [] s.toList).filter (fun t => t ≠ [])).map List.asString

/-- Value of a digit string, most significant digit first. -/
def natOfDigits (cs : List Char) : ℕ :=
  cs.foldl (fun a c => 10 * a + (c.toNat - 48)) 0

/-- Models Python `float(s)` on plain decimal literals: optional sign, then
`digits`, `digits.digits`, `.digits` or `digits.`; anything else is rejected
(`ValueError`).  The result is returned as a scaled integer: the pair
`(m, k)` denotes the value `m / 10 ^ k`.  Scientific notation, `inf`/`nan`
and underscore separators are accepted by Python but rejected here; no claim
in this development depends on such tokens. -/
def parseDecimal? (s : String) : Option (Int × Nat) :=
  let cs := s.toList
  let signed : Int × List Char :=
    match cs with
    | '+' :: rest => (1, rest)
    | '-' :: rest => (-1, rest)
    | _ => (1, cs)
  let intPart := signed.2.takeWhile Char.isDigit
  let rest := signed.2.dropWhile Char.isDigit
  match rest with
  | [] =>
    if intPart.isEmpty then none
    else some (signed.1 * natOfDigits intPart, 0)
  | '.' :: frac =>
    if frac.all Char.isDigit && !(intPart.isEmpty && frac.isEmpty) then
      some (signed.1 * natOfDigits (intPart ++ frac), frac.length)
    else none
  | _ => none

/-- Rational value of a successfully parsed decimal literal. -/
def parseFloat? (s : String) : Option ℚ :=
  (parseDecimal? s).map (fun p => (p.1 : ℚ) / (10 : ℚ) ^ p.2)

namespace LlamaPredictor

/-- Outcome of one call to the external generative model: either the call
raises a transport/runtime error, or it returns free-form text. -/
inductive LlmOutcome where
  | transportError : LlmOutcome
  | reply : String → LlmOutcome

/-- Embeds the token-scanning loop of `get_llm_similarity_ollama`
(`llama_predictor.py`): walk the whitespace tokens of the response and keep
the first one that `float(...)` accepts. -/
def firstParsedFloat : List String → Option ℚ
  | [] => none
  | t :: ts =>
    match parseFloat? t with
    | some v => some v
    | none => firstParsedFloat ts

/-- Embeds `get_llm_similarity_ollama` (`llama_predictor.py` lines 48-107):
on a reply, split into whitespace tokens, parse the first float; if none
parses return `None`; otherwise scale by 5 and clip into `[0, 5]` via
`max(0.0, min(5.0, v))`.  A raised exception is caught and also yields
`None`. -/
def get_llm_similarity_ollama : LlmOutcome → Option ℚ
  | .transportError => none
  | .reply output =>
    match firstParsedFloat (pySplit output) with
    | none => none
    | some v => some (max 0 (min 5 (v * 5)))

/-- Embeds the per-pair fallback in `main` (`llama_predictor.py` lines
133-139): `if val is None: val = 2.5`. -/
def llmPairScore (o : LlmOutcome) : ℚ :=
  (get_llm_similarity_ollama o).getD (5 / 2)

/-- Embeds the scoring loop of `main`: one outcome per sentence pair, each
mapped through the fallback substitution; the loop never aborts. -/
def llmScores (outcomes : List LlmOutcome) : List ℚ :=
  outcomes.map llmPairScore

/-- Embeds `save_scores_to_file` of `llama_predictor.py` (lines 113-116):
`f.write(f"{s}")` for each score — note: no newline is written.  The decimal
rendering of a float is abstracted as the parameter `render`; the function
returns the full file content. -/
def save_scores_to_file (render : ℚ → String) (scores : List ℚ) : String :=
  String.join (scores.map (fun s => render s))

end LlamaPredictor

namespace Predictor

/-- Embeds `save_scores_to_file` of `predictor.py` (lines 76-82), identical
in `syntactic.py` and `semantic.py`: `f.write(f"{s}\n")` for each score. -/
def save_scores_to_file (render : ℚ → String) (scores : List ℚ) : String :=
  String.join (scores.map (fun s => render s ++ "\n"))

end Predictor

/-- Result of loading an STS file: three aligned columns. -/
structure StsData where
  sents1 : List String
  sents2 : List String
  scores : List ℚ
deriving Repr, DecidableEq

/-- One iteration of the row loop shared by `load_sts_data_csv`
(`predictor.py`, `llama_predictor.py`, `semantic.py`) and
`load_sts_data_tsv` (`syntactic.py`): a row with fewer than 7 fields is
skipped; otherwise `float(row[4])` is attempted and a `ValueError` skips the
row; on success `row[5]`, `row[6]` and the score are appended to the three
accumulators.  The `csv.reader` itself is external; rows enter the loop
already split into fields. -/
def stsStep (acc : StsData) (row : List String) : StsData :=
  if row.length < 7 then acc
  else
    match parseFloat? (row.getD 4 "") with
    | none => acc
    | some score =>
      ⟨acc.sents1 ++ [row.getD 5 ""], acc.sents2 ++ [row.getD 6 ""], acc.scores ++ [score]⟩

/-- Embeds the loader loop over all rows of the file, in file order. -/
def stsLoad (rows : List (List String)) : StsData :=
  rows.foldl stsStep ⟨[], [], []⟩

/-- Specification-side acceptance predicate: at least 7 fields and field 4
parses as a float. -/
def keepRow (row : List String) : Bool :=
  decide (7 ≤ row.length) && (parseFloat? (row.getD 4 "")).isSome

/-- Score of an accepted row (field 4). -/
def rowVal (row : List String) : ℚ :=
  (parseFloat? (row.getD 4 "")).getD 0

namespace Predictor

/-- Embeds `load_sts_data_csv` of `predictor.py` (lines 12-57); the same
loop also appears in `llama_predictor.py` and `semantic.py`. -/
def load_sts_data_csv (rows : List (List String)) : StsData :=
  stsLoad rows

end Predictor

namespace Syntactic

/-- Embeds `load_sts_data_tsv` of `syntactic.py` (lines 12-46); identical
row logic (the two loaders differ only in the order of the three `append`
calls, which does not affect the result). -/
def load_sts_data_tsv (rows : List (List String)) : StsData :=
  stsLoad rows

end Syntactic

/-- Scaled variance numerator `n * Σ x² - (Σ x)²`; it is `0` exactly when
the list is constant (or shorter than 2). -/
def varNum (xs : List ℚ) : ℚ :=
  (xs.length : ℚ) * (xs.map (fun x => x * x)).sum - xs.sum * xs.sum

/-- Scaled covariance numerator `n * Σ xy - Σ x * Σ y` over aligned pairs. -/
def covNum (xs ys : List ℚ) : ℚ :=
  (xs.length : ℚ) * ((xs.zip ys).map (fun p => p.1 * p.2)).sum - xs.sum * ys.sum

/-- A Python float that is either IEEE NaN or an ordinary numeric value. -/
inductive PyFloat where
  | nan : PyFloat
  | num : ℚ → PyFloat
deriving Repr, DecidableEq

/-- Embeds `scipy.stats.pearsonr` as called in step (G) of each `main`
(`predictor.py` lines 135-138): when either input column is constant, scipy
emits `ConstantInputWarning` and returns IEEE NaN, which the caller passes
on unchecked; otherwise it returns the correlation
`r = cov / sqrt(varx * vary)`.  Since `r` involves a square root, the
defined value is carried in the rational encoding `sign(r) * r²`
(`covNum * |covNum| / (varNum * varNum)`), a strictly monotone bijection of
`[-1, 1]` onto itself, so definedness, sign and equality of results are
preserved exactly.  Inputs of length below 2 make scipy raise; the claims
below only quantify over length ≥ 2. -/
def pearsonr (xs ys : List ℚ) : PyFloat :=
  if varNum xs = 0 ∨ varNum ys = 0 then .nan
  else .num (covNum xs ys * |covNum xs ys| / (varNum xs * varNum ys))

/-- Embeds step (G) of `main` (`predictor.py` line 136): the value unpacked
from `pearsonr(test_pred_final, test_gt)` flows directly into the report
f-string and the plot annotation, with no definedness check of any kind. -/
def evaluateCorrelation (preds gt : List ℚ) : PyFloat :=
  pearsonr preds gt

/-- Lexicographic order on (prediction, ground-truth) pairs: the comparison
performed by Python `sorted` under the key `lambda p: (p[0], p[1])`. -/
def lexLe (a b : ℚ × ℚ) : Prop :=
  a.1 < b.1 ∨ (a.1 = b.1 ∧ a.2 ≤ b.2)

instance (a b : ℚ × ℚ) : Decidable (lexLe a b) := by
  unfold lexLe; infer_instance

/-- Boolean form of `lexLe`, usable by `List.mergeSort`. -/
def pairLe (a b : ℚ × ℚ) : Bool := decide (lexLe a b)

/-- Embeds step (H) of `main` (`predictor.py` lines 141-144):
`sorted(zip(test_pred_final, test_gt), key=lambda p: (p[0], p[1]))`.
Python `sorted` is a stable merge sort under the key order; `List.mergeSort`
under the same order is its direct counterpart. -/
def sortedPairs (preds gt : List ℚ) : List (ℚ × ℚ) :=
  (preds.zip gt).mergeSort pairLe

namespace Syntactic

/-- A word character in the sense of the regex class `\w`, restricted to
ASCII (the sentences of the claims below are ASCII). -/
def wordChar (c : Char) : Bool := c.isAlphanum || c == '_'

/-- Embeds the default tokenizer of scikit-learn `TfidfVectorizer`
(`lowercase=True`, `token_pattern=r"(?u)\b\w\w+\b"`): lowercase the text,
take the maximal runs of word characters, and keep only the runs of length
at least 2 — single-character tokens are discarded. -/
def skTokenize (s : String) : List String :=
  ((splitAcc (fun c => !wordChar c) [] (s.toList.map Char.toLower)).filter
    (fun t => 2 ≤ t.length)).map List.asString

/-- Embeds `TfidfVectorizer.fit` on a corpus (`syntactic.py` lines 94-101):
the fitted vocabulary is the set of tokens occurring in the corpus.  When
the corpus yields no token at all, `fit` raises `ValueError` ("empty
vocabulary"), a fatal ScorerUnavailable condition, modelled as `none`;
scoring only happens after a successful fit, so the scoring functions
below take the successfully fitted vocabulary. -/
def fitVocab (corpus : List String) : Option (List String) :=
  let v := (corpus.flatMap skTokenize).dedup
  if v.isEmpty then none else some v

/-- Raw term frequency of token `t` in sentence `s`. -/
def tfCount (s t : String) : ℚ := ((skTokenize s).count t : ℕ)

/-- Dot product of the tf-idf vectors of two sentences over a successfully
fitted vocabulary.  `TfidfVectorizer.transform` weights each vocabulary
term by `count * idf(term)`; the idf values (`ln((1+n)/(1+df)) + 1` under
the default `smooth_idf=True`) are irrational, so they enter as a weight
function `idf`, required positive where it matters.  The final `l2`
normalisation of `transform` cancels inside cosine similarity, so it is
folded into `tfidfScoreSq` below. -/
def tfidfDot (idf : String → ℚ) (fitted : List String) (s1 s2 : String) : ℚ :=
  (fitted.map (fun t => (tfCount s1 t * idf t) * (tfCount s2 t * idf t))).sum

/-- Embeds one iteration of `compute_tfidf_similarities` (`syntactic.py`
lines 51-67): cosine similarity of the two transformed vectors, carried as
its square `⟨v1,v2⟩² / (⟨v1,v1⟩·⟨v2,v2⟩)` to stay rational.  All tf-idf
weights are nonnegative, so the cosine itself lies in `[0, 1]` and it
equals `1` exactly when its square does.  `sklearn.cosine_similarity` maps
a zero vector to similarity `0`, hence the guard branch. -/
def tfidfScoreSq (idf : String → ℚ) (fitted : List String) (s1 s2 : String) : ℚ :=
  let d11 := tfidfDot idf fitted s1 s1
  let d22 := tfidfDot idf fitted s2 s2
  if d11 * d22 = 0 then 0
  else (tfidfDot idf fitted s1 s2) ^ 2 / (d11 * d22)

end Syntactic

namespace Semantic

/-- Dot product of two embedding vectors (zip truncates at the shorter
list; the embedding model returns fixed-dimension vectors). -/
def dotQ (u v : List ℚ) : ℚ := ((u.zip v).map (fun p => p.1 * p.2)).sum

/-- Embeds `sklearn.cosine_similarity(v1, v2)[0][0]` on two embedding rows
(`semantic.py` lines 72-76), in the rational encoding `sign(c) * c²`
(strictly monotone on `[-1, 1]`, so equalities of similarities are
preserved); a zero vector yields `0`, as in sklearn. -/
def cosSimSq (u v : List ℚ) : ℚ :=
  if dotQ u u * dotQ v v = 0 then 0
  else dotQ u v * |dotQ u v| / (dotQ u u * dotQ v v)

/-- Embeds `compute_semantic_similarities` (`semantic.py` lines 52-77):
concatenate the two sentence lists, encode the concatenation in one batch
(`model.encode` embeds each sentence independently; batching is an
efficiency device, modelled as `map encode`), split the embedding list at
`half = len(sents1)`, then take the cosine of the i-th elements of the two
halves for `i in range(half)`. -/
def compute_semantic_similarities (encode : String → List ℚ)
    (sents1 sents2 : List String) : List ℚ :=
  let all_sentences := sents1 ++ sents2
  let all_embeddings := all_sentences.map encode
  let half := sents1.length
  let emb_sents1 := all_embeddings.take half
  let emb_sents2 := all_embeddings.drop half
  (List.range half).map (fun i => cosSimSq (emb_sents1.getD i []) (emb_sents2.getD i []))

/-- Specification-side description of the same computation: encode the two
members of each aligned pair and take their cosine. -/
def pairwiseSims (encode : String → List ℚ) (sents1 sents2 : List String) : List ℚ :=
  List.zipWith (fun a b => cosSimSq (encode a) (encode b)) sents1 sents2

end Semantic

/-- Lines of a written text file, with Python `splitlines` semantics for a
trailing newline: split the content at every newline character and drop the
final empty chunk produced by a terminating newline. -/
def fileLines (content : String) : List String :=
  let parts := (splitAcc (fun c => c == '\n') [] content.toList).map List.asString
  if parts.getLast? = some "" then parts.dropLast else parts

/-! ## Concrete evaluations of the float parser -/

theorem parseFloat_08 : parseFloat? "0.8" = some ((8 : ℚ) / 10) := by
  have h : parseDecimal? "0.8" = some (8, 1) := by decide
  simp [parseFloat?, h]

theorem parseFloat_09 : parseFloat? "0.9" = some ((9 : ℚ) / 10) := by
  have h : parseDecimal? "0.9" = some (9, 1) := by decide
  simp [parseFloat?, h]

/-! ## C1: elicited-score parsing -/

/-- C1: the elicited-score parser splits the response into whitespace
tokens and returns the first token that parses as a float, rescales by 5
and clamps into `[0, 5]`; every returned score lies in `[0, 5]`; the
response `"0.8 (high similarity)"` yields `4.0`; a response with no
parseable token such as `"very similar"` yields `None` (a failure), not a
score of `0`. -/
theorem claim_C1_elicited_score_parsing :
    (∀ text v, LlamaPredictor.get_llm_similarity_ollama (.reply text) = some v →
      0 ≤ v ∧ v ≤ 5) ∧
    (∀ text v, LlamaPredictor.firstParsedFloat (pySplit text) = some v →
      LlamaPredictor.get_llm_similarity_ollama (.reply text) = some (max 0 (min 5 (v * 5)))) ∧
    (∀ text, LlamaPredictor.firstParsedFloat (pySplit text) = none →
      LlamaPredictor.get_llm_similarity_ollama (.reply text) = none) ∧
    LlamaPredictor.get_llm_similarity_ollama (.reply "0.8 (high similarity)") = some 4 ∧
    LlamaPredictor.get_llm_similarity_ollama (.reply "very similar") = none := by
  have parse08 :
      LlamaPredictor.firstParsedFloat (pySplit "0.8 (high similarity)") = some ((8 : ℚ) / 10) := by
    have hsplit : pySplit "0.8 (high similarity)" = ["0.8", "(high", "similarity)"] := by decide
    rw [hsplit]
    simp [LlamaPredictor.firstParsedFloat, parseFloat_08]
  refine ⟨?_, ?_, ?_, ?_, ?_⟩
  · intro text v h
    simp only [LlamaPredictor.get_llm_similarity_ollama] at h
    cases hf : LlamaPredictor.firstParsedFloat (pySplit text) with
    | none => rw [hf] at h; simp at h
    | some w =>
      rw [hf] at h
      simp only [Option.some.injEq] at h
      subst h
      refine ⟨le_max_left _ _, max_le (by norm_num) (min_le_left _ _)⟩
  · intro text v h
    simp only [LlamaPredictor.get_llm_similarity_ollama, h]
  · intro text h
    simp only [LlamaPredictor.get_llm_similarity_ollama, h]
  · simp only [LlamaPredictor.get_llm_similarity_ollama, parse08]
    norm_num
  · have hnone : LlamaPredictor.firstParsedFloat (pySplit "very similar") = none := by decide
    simp only [LlamaPredictor.get_llm_similarity_ollama, hnone]

/-- C1 witness: the bounds part of the claim instantiated at the concrete
response `"0.8 (high similarity)"`, whose score is `4`. -/
theorem claim_C1_witness : 0 ≤ (4 : ℚ) ∧ (4 : ℚ) ≤ 5 :=
  claim_C1_elicited_score_parsing.1 "0.8 (high similarity)" 4
    claim_C1_elicited_score_parsing.2.2.2.1

/-! ## C5: fallback value on elicitation failure -/

/-- C5: when the external generative call raises or its output contains no
parseable number, the per-pair score is the fixed neutral fallback `2.5`,
and the scoring loop continues: it produces exactly one score per outcome,
in order. -/
theorem claim_C5_fallback_score :
    (LlamaPredictor.llmPairScore .transportError = 5 / 2) ∧
    (∀ text, LlamaPredictor.firstParsedFloat (pySplit text) = none →
      LlamaPredictor.llmPairScore (.reply text) = 5 / 2) ∧
    (∀ outcomes, (LlamaPredictor.llmScores outcomes).length = outcomes.length) ∧
    (∀ outcomes (i : ℕ), i < outcomes.length →
      (LlamaPredictor.llmScores outcomes).getD i 0 =
        LlamaPredictor.llmPairScore (outcomes.getD i .transportError)) := by
  refine ⟨rfl, ?_, ?_, ?_⟩
  · intro text h
    simp only [LlamaPredictor.llmPairScore, LlamaPredictor.get_llm_similarity_ollama, h]
    rfl
  · intro outcomes
    simp [LlamaPredictor.llmScores]
  · intro outcomes i hi
    unfold LlamaPredictor.llmScores
    rw [List.getD_eq_getElem?_getD, List.getElem?_map,
      List.getElem?_eq_getElem hi, List.getD_eq_getElem?_getD,
      List.getElem?_eq_getElem hi]
    rfl

/-- C5 witness: the unparsable response `"very similar"` scores the
fallback `2.5`. -/
theorem claim_C5_witness : LlamaPredictor.llmPairScore (.reply "very similar") = 5 / 2 :=
  claim_C5_fallback_score.2.1 "very similar" (by decide)

/-! ## Loader characterization -/

theorem stsStep_skip (acc : StsData) (row : List String) (h : keepRow row = false) :
    stsStep acc row = acc := by
  unfold stsStep
  unfold keepRow at h
  by_cases hl : row.length < 7
  · rw [if_pos hl]
  · rw [if_neg hl]
    simp only [Bool.and_eq_false_iff, decide_eq_false_iff_not, not_le] at h
    rcases h with h | h
    · exact absurd h hl
    · cases hp : parseFloat? (row.getD 4 "") with
      | none => rfl
      | some v => rw [hp] at h; simp at h

theorem stsStep_keep (acc : StsData) (row : List String) (h : keepRow row = true) :
    stsStep acc row =
      ⟨acc.sents1 ++ [row.getD 5 ""], acc.sents2 ++ [row.getD 6 ""],
        acc.scores ++ [rowVal row]⟩ := by
  unfold keepRow at h
  simp only [Bool.and_eq_true, decide_eq_true_eq, Option.isSome_iff_exists] at h
  obtain ⟨hl, v, hv⟩ := h
  unfold stsStep
  rw [if_neg (by omega), hv]
  unfold rowVal
  rw [hv]
  rfl

theorem stsLoad_foldl_spec (rows : List (List String)) : ∀ acc : StsData,
    rows.foldl stsStep acc =
      ⟨acc.sents1 ++ (rows.filter keepRow).map (fun r => r.getD 5 ""),
       acc.sents2 ++ (rows.filter keepRow).map (fun r => r.getD 6 ""),
       acc.scores ++ (rows.filter keepRow).map rowVal⟩ := by
  induction rows with
  | nil => intro acc; simp
  | cons row rest ih =>
    intro acc
    rw [List.foldl_cons, List.filter_cons]
    cases h : keepRow row with
    | false =>
      rw [stsStep_skip acc row h]
      simpa using ih acc
    | true =>
      rw [stsStep_keep acc row h]
      rw [ih]
      simp

/-- Central characterization of the loader: the output columns are exactly
the accepted rows (at least 7 fields, field 4 parses), in input order,
projected to fields 5, 6 and the parsed field 4. -/
theorem stsLoad_spec (rows : List (List String)) :
    stsLoad rows =
      ⟨(rows.filter keepRow).map (fun r => r.getD 5 ""),
       (rows.filter keepRow).map (fun r => r.getD 6 ""),
       (rows.filter keepRow).map rowVal⟩ := by
  unfold stsLoad
  rw [stsLoad_foldl_spec]
  rfl

/-! ## C2: row acceptance policy of the dataset loader -/

/-- C2: both loaders include a row exactly when it has at least 7 fields
and field 4 parses as a float; all other rows are skipped without aborting
(the loader is a total function of the row list); output preserves input
row order (it is the filtered row list, projected); emptiness of the
sentence fields plays no role in acceptance. -/
theorem claim_C2_loader_row_policy :
    (∀ rows, Predictor.load_sts_data_csv rows =
      ⟨(rows.filter keepRow).map (fun r => r.getD 5 ""),
       (rows.filter keepRow).map (fun r => r.getD 6 ""),
       (rows.filter keepRow).map rowVal⟩) ∧
    (∀ rows, Syntactic.load_sts_data_tsv rows =
      ⟨(rows.filter keepRow).map (fun r => r.getD 5 ""),
       (rows.filter keepRow).map (fun r => r.getD 6 ""),
       (rows.filter keepRow).map rowVal⟩) ∧
    (∀ row, keepRow row = true ↔
      7 ≤ row.length ∧ (parseFloat? (row.getD 4 "")).isSome = true) := by
  refine ⟨fun rows => stsLoad_spec rows, fun rows => stsLoad_spec rows, fun row => ?_⟩
  unfold keepRow
  simp

/-- C2 witness: a four-row file — a header whose field 4 does not parse, a
short row, a valid row with empty sentence text, and a valid ordinary row —
loads to exactly the two valid rows, in order. -/
theorem claim_C2_witness :
    Predictor.load_sts_data_csv
      [["genre", "file", "year", "id", "score", "sentence1", "sentence2"],
       ["main-captions", "MSRvid", "2012test", "0001"],
       ["main-captions", "MSRvid", "2012test", "0002", "2.5", "", ""],
       ["main-captions", "MSRvid", "2012test", "0003", "5.0", "A plane is taking off.",
        "An air plane is taking off."]] =
      ⟨["", "A plane is taking off."], ["", "An air plane is taking off."],
       [5 / 2, 5]⟩ := by
  rw [claim_C2_loader_row_policy.1]
  have h1 : parseFloat? "score" = none := by decide
  have h2 : parseFloat? "2.5" = some ((25 : ℚ) / 10) := by
    have h : parseDecimal? "2.5" = some (25, 1) := by decide
    simp [parseFloat?, h]
  have h3 : parseFloat? "5.0" = some ((50 : ℚ) / 10) := by
    have h : parseDecimal? "5.0" = some (50, 1) := by decide
    simp [parseFloat?, h]
  simp [keepRow, rowVal, h1, h2, h3]
  norm_num

/-- Helper: the i-th element of a mapped list, as a default-value lookup. -/
theorem getD_map_of_lt {α β : Type} (f : α → β) (l : List α) (i : ℕ) (h : i < l.length)
    (d : β) (d0 : α) : (l.map f).getD i d = f (l.getD i d0) := by
  rw [List.getD_eq_getElem?_getD, List.getElem?_map, List.getElem?_eq_getElem h,
    List.getD_eq_getElem?_getD, List.getElem?_eq_getElem h]
  rfl

/-! ## C6: alignment of the three loaded columns -/

/-- C6: the three sequences returned by the loader have the same length,
and for every index below that length the i-th elements of all three are
the projections (field 5, field 6, parsed field 4) of the same accepted
input row. -/
theorem claim_C6_loader_alignment : ∀ rows : List (List String),
    ((Predictor.load_sts_data_csv rows).sents1.length =
        (Predictor.load_sts_data_csv rows).sents2.length ∧
      (Predictor.load_sts_data_csv rows).sents2.length =
        (Predictor.load_sts_data_csv rows).scores.length) ∧
    (∀ i : ℕ, i < (rows.filter keepRow).length →
      (Predictor.load_sts_data_csv rows).sents1.getD i "" =
          ((rows.filter keepRow).getD i []).getD 5 "" ∧
      (Predictor.load_sts_data_csv rows).sents2.getD i "" =
          ((rows.filter keepRow).getD i []).getD 6 "" ∧
      (Predictor.load_sts_data_csv rows).scores.getD i 0 =
          rowVal ((rows.filter keepRow).getD i [])) := by
  intro rows
  have hspec := stsLoad_spec rows
  unfold Predictor.load_sts_data_csv
  rw [hspec]
  refine ⟨⟨by simp, by simp⟩, ?_⟩
  intro i hi
  exact ⟨getD_map_of_lt _ _ i hi "" [], getD_map_of_lt _ _ i hi "" [],
    getD_map_of_lt _ _ i hi 0 []⟩

/-- C6 witness: the alignment facts instantiated on a two-row file with one
accepted row. -/
theorem claim_C6_witness :
    (Predictor.load_sts_data_csv
        [["a", "b", "c", "d", "0.5", "s1", "s2"], ["short"]]).sents1.getD 0 "" =
      (([["a", "b", "c", "d", "0.5", "s1", "s2"], ["short"]].filter keepRow).getD 0 []).getD
        5 "" := by
  refine ((claim_C6_loader_alignment
    [["a", "b", "c", "d", "0.5", "s1", "s2"], ["short"]]).2 0 ?_).1
  have h : parseFloat? "0.5" = some ((5 : ℚ) / 10) := by
    have hd : parseDecimal? "0.5" = some (5, 1) := by decide
    simp [parseFloat?, hd]
  simp [keepRow, h]

/-! ## C4: undefined correlation is passed through as NaN -/

/-- C4 (code bug): on a constant prediction column of length 2, the scipy
correlation is IEEE NaN, and the evaluator of `main` passes that NaN
through to the printed report and the plot annotation without any
explicit undefined-result handling — `evaluateCorrelation` is exactly
`pearsonr` with no definedness check, contradicting the specified
behaviour of surfacing an explicit undefined result. -/
theorem claim_C4_nan_passthrough :
    ([(5 : ℚ) / 2, 5 / 2].length = 2 ∧ varNum [(5 : ℚ) / 2, 5 / 2] = 0) ∧
    evaluateCorrelation [5 / 2, 5 / 2] [0, 5] = PyFloat.nan ∧
    (∀ preds gt : List ℚ, evaluateCorrelation preds gt = pearsonr preds gt) := by
  have hv : varNum [(5 : ℚ) / 2, 5 / 2] = 0 := by
    unfold varNum
    norm_num
  refine ⟨⟨by norm_num, hv⟩, ?_, fun preds gt => rfl⟩
  unfold evaluateCorrelation pearsonr
  rw [if_pos (Or.inl hv)]

/-! ## C7: deterministic sorted reporting series -/

theorem lexLe_trans : ∀ a b c : ℚ × ℚ, lexLe a b → lexLe b c → lexLe a c := by
  intro a b c hab hbc
  unfold lexLe at hab hbc ⊢
  rcases hab with h1 | ⟨h1, h2⟩ <;> rcases hbc with h3 | ⟨h3, h4⟩
  · exact Or.inl (lt_trans h1 h3)
  · exact Or.inl (h3 ▸ h1)
  · exact Or.inl (h1 ▸ h3)
  · exact Or.inr ⟨h1.trans h3, h2.trans h4⟩

theorem lexLe_total : ∀ a b : ℚ × ℚ, lexLe a b ∨ lexLe b a := by
  intro a b
  unfold lexLe
  rcases lt_trichotomy a.1 b.1 with h | h | h
  · exact Or.inl (Or.inl h)
  · rcases le_total a.2 b.2 with h2 | h2
    · exact Or.inl (Or.inr ⟨h, h2⟩)
    · exact Or.inr (Or.inr ⟨h.symm, h2⟩)
  · exact Or.inr (Or.inl h)

theorem lexLe_antisymm : ∀ a b : ℚ × ℚ, lexLe a b → lexLe b a → a = b := by
  intro a b hab hba
  unfold lexLe at hab hba
  rcases hab with h1 | ⟨h1, h2⟩ <;> rcases hba with h3 | ⟨h3, h4⟩
  · exact absurd (lt_trans h1 h3) (lt_irrefl _)
  · exact absurd h1 (h3 ▸ lt_irrefl _)
  · exact absurd h3 (h1 ▸ lt_irrefl _)
  · exact Prod.ext h1 (le_antisymm h2 h4)

instance : IsAntisymm (ℚ × ℚ) lexLe := ⟨lexLe_antisymm⟩

theorem pairLe_trans : ∀ a b c : ℚ × ℚ, pairLe a b = true → pairLe b c = true →
    pairLe a c = true := by
  intro a b c hab hbc
  simp only [pairLe, decide_eq_true_eq] at hab hbc ⊢
  exact lexLe_trans a b c hab hbc

theorem pairLe_total : ∀ a b : ℚ × ℚ, (pairLe a b || pairLe b a) = true := by
  intro a b
  simp only [pairLe, Bool.or_eq_true, decide_eq_true_eq]
  exact lexLe_total a b

/-- C7: the reporting series is a permutation of the `(prediction,
ground_truth)` pairs, sorted ascending by prediction with ties broken
ascending by ground truth, and this output is deterministic in the
strongest sense: it is the unique such sorted permutation, so two runs on
identical input produce the identical sequence. -/
theorem claim_C7_sorted_series : ∀ preds gt : List ℚ,
    (sortedPairs preds gt).Perm (preds.zip gt) ∧
    (sortedPairs preds gt).Sorted lexLe ∧
    (∀ l : List (ℚ × ℚ), l.Perm (preds.zip gt) → l.Sorted lexLe →
      l = sortedPairs preds gt) := by
  intro preds gt
  have hperm : (sortedPairs preds gt).Perm (preds.zip gt) :=
    List.mergeSort_perm (preds.zip gt) pairLe
  have hsorted : (sortedPairs preds gt).Sorted lexLe := by
    have h := List.sorted_mergeSort pairLe_trans pairLe_total (preds.zip gt)
    exact h.imp (fun hd => by simpa [pairLe] using hd)
  refine ⟨hperm, hsorted, fun l hl hls => ?_⟩
  exact List.eq_of_perm_of_sorted (hl.trans hperm.symm) hls hsorted

/-- C7 witness: on predictions `[1, 2]` with ground truth `[3, 5]` the
unique sorted permutation is the zipped list itself. -/
theorem claim_C7_witness : [((1 : ℚ), (3 : ℚ)), (2, 5)] = sortedPairs [1, 2] [3, 5] := by
  refine (claim_C7_sorted_series [1, 2] [3, 5]).2.2 [(1, 3), (2, 5)] (List.Perm.refl _) ?_
  simp [List.sorted_cons, lexLe]

/-! ## C8: lexical self-similarity -/

/-- C8 counterexample: on the corpus `["a", "bb"]` the vectorizer fit
succeeds (the vocabulary is `["bb"]`), the sentence `"a"` is non-empty and
contained in that corpus, yet its self-similarity is `0`, not `1`: the
default tokenizer discards single-character tokens, so `"a"` vectorizes to
the zero vector, and `cosine_similarity` of zero vectors is `0`. -/
theorem claim_C8_counterexample :
    Syntactic.fitVocab ["a", "bb"] = some ["bb"] ∧
    ("a" : String) ≠ "" ∧ ("a" : String) ∈ ["a", "bb"] ∧
    Syntactic.tfidfScoreSq (fun _ => 1) ["bb"] "a" "a" = 0 ∧ ((0 : ℚ) ≠ 1) := by
  have htf : Syntactic.tfCount "a" "bb" = 0 := by
    have h : Syntactic.skTokenize "a" = [] := by decide
    simp [Syntactic.tfCount, h]
  refine ⟨by decide, by decide, by simp, ?_, by norm_num⟩
  simp [Syntactic.tfidfScoreSq, Syntactic.tfidfDot, htf]

/-- C8 as amended: whenever the vectorizer fit succeeds on the corpus, for
every sentence contained in that corpus that has at least one token under
the vectorizer's tokenization (a run of at least two word characters) —
rather than every non-empty sentence — the self-similarity is exactly `1`,
for any positive idf weighting. -/
theorem claim_C8_self_similarity (idf : String → ℚ) (corpus fitted : List String)
    (s : String) (hidf : ∀ t, 0 < idf t)
    (hfit : Syntactic.fitVocab corpus = some fitted) (hmem : s ∈ corpus)
    (htok : Syntactic.skTokenize s ≠ []) :
    Syntactic.tfidfScoreSq idf fitted s s = 1 := by
  have hfitted : fitted = (corpus.flatMap Syntactic.skTokenize).dedup := by
    unfold Syntactic.fitVocab at hfit
    by_cases h : ((corpus.flatMap Syntactic.skTokenize).dedup).isEmpty
    · simp [h] at hfit
    · simp [h] at hfit
      exact hfit.symm
  obtain ⟨t0, ht0⟩ := List.exists_mem_of_ne_nil _ htok
  have ht0v : t0 ∈ fitted := by
    rw [hfitted, List.mem_dedup, List.mem_flatMap]
    exact ⟨s, hmem, ht0⟩
  have hterm_pos : 0 < (Syntactic.tfCount s t0 * idf t0) * (Syntactic.tfCount s t0 * idf t0) := by
    have htf : 0 < Syntactic.tfCount s t0 := by
      unfold Syntactic.tfCount
      have : 0 < (Syntactic.skTokenize s).count t0 := List.count_pos_iff.mpr ht0
      exact_mod_cast this
    have := mul_pos htf (hidf t0)
    exact mul_pos this this
  have hd_pos : 0 < Syntactic.tfidfDot idf fitted s s := by
    unfold Syntactic.tfidfDot
    have hnonneg : ∀ y ∈ fitted.map
        (fun t => (Syntactic.tfCount s t * idf t) * (Syntactic.tfCount s t * idf t)), 0 ≤ y := by
      intro y hy
      obtain ⟨t, _, rfl⟩ := List.mem_map.mp hy
      exact mul_self_nonneg _
    have hle := List.single_le_sum hnonneg
      ((Syntactic.tfCount s t0 * idf t0) * (Syntactic.tfCount s t0 * idf t0))
      (List.mem_map.mpr ⟨t0, ht0v, rfl⟩)
    exact lt_of_lt_of_le hterm_pos hle
  have hd_ne : Syntactic.tfidfDot idf fitted s s ≠ 0 := ne_of_gt hd_pos
  unfold Syntactic.tfidfScoreSq
  rw [if_neg (by simpa using mul_ne_zero hd_ne hd_ne)]
  rw [sq]
  exact div_self (mul_ne_zero hd_ne hd_ne)

/-- C8 witness: on the corpus `["ab"]` the fit succeeds with vocabulary
`["ab"]`, and the sentence `"ab"` (one token of two word characters) has
self-similarity exactly `1`. -/
theorem claim_C8_witness :
    Syntactic.tfidfScoreSq (fun _ => 1) ["ab"] "ab" "ab" = 1 :=
  claim_C8_self_similarity (fun _ => 1) ["ab"] ["ab"] "ab" (fun _ => by norm_num)
    (by decide) (by simp) (by decide)

/-! ## C9: one score per line -/

/-- C9 (code bug): `save_scores_to_file` of `llama_predictor.py` writes
`f"{s}"` with no newline, so a two-score set produces a single line holding
both scores concatenated; the identically named writer of `predictor.py`
(and `syntactic.py`, `semantic.py`) writes `f"{s}\n"` and produces one
score per line as specified.  The renderer stands for the f-string decimal
formatting of each float. -/
theorem claim_C9_one_score_per_line :
    fileLines (LlamaPredictor.save_scores_to_file
      (fun q => if q.num ≤ 1 then "1.0" else "2.0") [1, 2]) = ["1.02.0"] ∧
    fileLines (Predictor.save_scores_to_file
      (fun q => if q.num ≤ 1 then "1.0" else "2.0") [1, 2]) = ["1.0", "2.0"] := by
  constructor <;> decide

/-! ## C10: batched embedding preserves pair alignment -/

theorem rangeMap_getD_eq_zipWith {α β : Type} (f : α → α → β) (d : α) :
    ∀ l1 l2 : List α, l1.length = l2.length →
      (List.range l1.length).map (fun i => f (l1.getD i d) (l2.getD i d)) =
        List.zipWith f l1 l2 := by
  intro l1
  induction l1 with
  | nil => intro l2 _; simp
  | cons a t ih =>
    intro l2 h
    cases l2 with
    | nil => simp at h
    | cons b t2 =>
      simp only [List.length_cons, Nat.succ.injEq] at h
      rw [List.length_cons, List.range_succ_eq_map, List.map_cons, List.map_map]
      rw [List.zipWith_cons_cons]
      congr 1
      have := ih t2 h
      rw [← this]
      rfl

/-- C10: the batched computation — concatenate, encode, split at
`len(sents1)` — returns one similarity per aligned pair: it equals the
direct pairwise computation and has the length of the input lists. -/
theorem claim_C10_batched_alignment (encode : String → List ℚ)
    (sents1 sents2 : List String) (h : sents1.length = sents2.length) :
    Semantic.compute_semantic_similarities encode sents1 sents2 =
      Semantic.pairwiseSims encode sents1 sents2 ∧
    (Semantic.compute_semantic_similarities encode sents1 sents2).length =
      sents1.length := by
  have hmain : Semantic.compute_semantic_similarities encode sents1 sents2 =
      Semantic.pairwiseSims encode sents1 sents2 := by
    unfold Semantic.compute_semantic_similarities
    simp only [List.map_append]
    have hlen1 : (sents1.map encode).length = sents1.length := List.length_map _ _
    have htake : ((sents1.map encode) ++ (sents2.map encode)).take sents1.length =
        sents1.map encode := by
      rw [← hlen1, List.take_left]
    have hdrop : ((sents1.map encode) ++ (sents2.map encode)).drop sents1.length =
        sents2.map encode := by
      rw [← hlen1, List.drop_left]
    rw [htake, hdrop]
    have hlen : (sents1.map encode).length = (sents2.map encode).length := by
      simp [h]
    have := rangeMap_getD_eq_zipWith Semantic.cosSimSq ([] : List ℚ)
      (sents1.map encode) (sents2.map encode) hlen
    rw [← hlen1, this]
    unfold Semantic.pairwiseSims
    rw [List.zipWith_map]
  refine ⟨hmain, ?_⟩
  rw [hmain]
  unfold Semantic.pairwiseSims
  rw [List.length_zipWith, h, min_self]

/-- C10 witness: batched and direct computation agree on a concrete
one-pair input. -/
theorem claim_C10_witness :
    Semantic.compute_semantic_similarities (fun _ => [(1 : ℚ)]) ["a"] ["b"] =
      Semantic.pairwiseSims (fun _ => [(1 : ℚ)]) ["a"] ["b"] :=
  (claim_C10_batched_alignment (fun _ => [(1 : ℚ)]) ["a"] ["b"] rfl).1
